import Mathlib

/-!
# Verification of the BigQuery SSE tool server

Shallow embedding of `src/mcp_bq_sse/server.py` and `src/mcp_bq_sse/bigqueryOp.py`.

The BigQuery client is modelled as a record of pure functions (`BQClient`);
side effects (directory creation, CSV file writes, backend calls) are threaded
through an explicit `World` state so that "no file was written" and "the
backend was never invoked" are stated as equalities on that state.  Python
exceptions are modelled with `Except`; the value carried by `Except.error` is
the `str(e)` text (CPython message texts are rendered without quote
characters).  Mutation of `self` is modelled by returning an updated
`BigQueryDatabase`.
-/

namespace BqSse

/-- A `bigquery.ScalarQueryParameter(name, type_, value)` as built in
`describe_table` (bigqueryOp.py line 132). -/
structure ScalarQueryParameter where
  name : String
  type : String
  value : String
deriving DecidableEq, Repr

/-- The outcome of a successful `client.query(...).result()`: a column schema
(field names in order) and the result rows, each row an ordered mapping from
column name to a (string-rendered) value. -/
structure QueryRes where
  schema : List String
  rows : List (List (String × String))
deriving DecidableEq, Repr

/-- The `google.cloud.bigquery.Client` collaborator, modelled as pure data:
`queryFn` is the response of the warehouse to a query (with optional bound
parameters), `datasetsList` models `list_datasets()`, `tablesOf` models
`list_tables(dataset_id)`.  `Except.error e` models the client raising. -/
structure BQClient where
  queryFn : String → Option (List ScalarQueryParameter) → Except String QueryRes
  datasetsList : List String
  tablesOf : String → List String

/-- `self.last_query_results = {"rows": rows, "schema": results.schema}`
(bigqueryOp.py line 82). -/
structure LastResults where
  rows : List (List (String × String))
  schema : List String
deriving DecidableEq, Repr

/-- The mutable state of a `BigQueryDatabase` instance after construction
(bigqueryOp.py lines 59-63): the client, the configured `datasets_filter`,
and the last-query cache (`None` initially, modelled as `none`). -/
structure BigQueryDatabase where
  client : BQClient
  datasets_filter : List String
  last_query_results : Option LastResults

/-- One call into the Backend Adapter, recorded in the effect trace. -/
inductive BackendCall
  | query (q : String)
  | listDatasets
  | listTables (dataset_id : String)
deriving DecidableEq, Repr

/-- The observable effect state: existing directories, written CSV files
(path, rows of cells) and the trace of backend calls made so far. -/
structure World where
  dirs : List String
  files : List (String × List (List String))
  calls : List BackendCall
deriving DecidableEq, Repr

/-- A `types.TextContent(type="text", text=s)` block; the only content kind
the dispatcher ever produces. -/
inductive Content
  | text (s : String)
deriving DecidableEq, Repr

/-! ## os.path helpers (POSIX semantics, as used by the source) -/

/-- Index of the last `'/'` in a character list (0-based from the head). -/
def rfindSlashAux : List Char → Nat → Option Nat
  | [], _ => none
  | c :: rest, i =>
    match rfindSlashAux rest (i + 1) with
    | some j => some j
    | none => if c = '/' then some i else none

/-- `os.path.dirname` (posixpath): everything up to the last `'/'`, with
trailing slashes stripped unless the head is all slashes; `""` when the path
has no slash (in particular for a bare filename). -/
def os_path_dirname (p : String) : String :=
  match rfindSlashAux p.toList 0 with
  | none => ""
  | some i =>
    let head := p.toList.take (i + 1)
    if head.all (fun c => c = '/') then String.mk head
    else String.mk ((head.reverse.dropWhile (fun c => c = '/')).reverse)

/-- `os.path.join a b` (posixpath, two components as used at server.py
line 166). -/
def os_path_join (a b : String) : String :=
  if b.startsWith "/" then b
  else if a = "" ∨ a.endsWith "/" then a ++ b
  else a ++ "/" ++ b

/-- `os.makedirs(path, exist_ok=True)`: CPython's `makedirs` ends in
`mkdir(path)`, which raises `FileNotFoundError` on the empty string (and
`exist_ok` does not save it, since `isdir("")` is false); on a non-empty path
with `exist_ok=True` it ensures the directory exists. -/
def os_makedirs (w : World) (path : String) : Except String World :=
  if path = "" then Except.error "No such file or directory"
  else Except.ok { w with dirs := if path ∈ w.dirs then w.dirs else path :: w.dirs }

/-- `open(file_path, "w") ... csv.writer ... writerow`: (re)writes the file,
replacing any previous content at the same path. -/
def writeFile (w : World) (path : String) (content : List (List String)) : World :=
  { w with files := (path, content) :: w.files.filter (fun e => e.1 ≠ path) }

/-- The rows a CSV write produces: the header row (field names) when the
schema is non-empty (`if results.schema:`), then one row of values per result
row (`list(row.values())`), in schema order. -/
def csvRowsOf (schema : List String) (rows : List (List (String × String))) :
    List (List String) :=
  (if schema ≠ [] then [schema] else []) ++ rows.map (fun r => r.map Prod.snd)

/-! ## BigQueryDatabase methods (bigqueryOp.py) -/

/-- `self.client.query(query)` / `self.client.query(query, job_config=...)`
with the call recorded in the effect trace. -/
def clientQuery (db : BigQueryDatabase) (w : World) (q : String)
    (params : Option (List ScalarQueryParameter)) : Except String QueryRes × World :=
  (db.client.queryFn q params, { w with calls := w.calls ++ [BackendCall.query q] })

/-- `execute_query` (bigqueryOp.py lines 65-88): runs the query; on success
stores the rows and schema in `last_query_results` and returns the rows; on a
client failure re-raises and leaves `self` untouched. -/
def execute_query (db : BigQueryDatabase) (w : World) (q : String)
    (params : Option (List ScalarQueryParameter)) :
    Except String (List (List (String × String))) × BigQueryDatabase × World :=
  match clientQuery db w q params with
  | (Except.error e, w1) => (Except.error e, db, w1)
  | (Except.ok res, w1) =>
    (Except.ok res.rows,
     { db with last_query_results := some { rows := res.rows, schema := res.schema } },
     w1)

/-- `list_tables` (bigqueryOp.py lines 90-111).  NOTE: the method takes no
argument beyond `self`; when `datasets_filter` is non-empty (Python
truthiness) it uses that list, otherwise it calls `client.list_datasets()`,
then lists the tables of each dataset. -/
def list_tables (db : BigQueryDatabase) (w : World) : List String × World :=
  let init :=
    if db.datasets_filter ≠ [] then (db.datasets_filter, w)
    else (db.client.datasetsList,
          { w with calls := w.calls ++ [BackendCall.listDatasets] })
  init.1.foldl
    (fun acc d =>
      (acc.1 ++ (db.client.tablesOf d).map (fun t => d ++ "." ++ t),
       { acc.2 with calls := acc.2.calls ++ [BackendCall.listTables d] }))
    ([], init.2)

/-- Split a character list at every occurrence of `c`; structural recursion
mirror of Python `str.split(sep)` for a one-character separator: the result
always has one more piece than there are separators (so `""` splits to
`[""]`, exactly as in Python). -/
def splitOnChar (c : Char) : List Char → List (List Char)
  | [] => [[]]
  | x :: xs =>
    if x = c then [] :: splitOnChar c xs
    else
      match splitOnChar c xs with
      | [] => [[x]]
      | h :: t => (x :: h) :: t

/-- `table_name.split(".")` (bigqueryOp.py line 117). -/
def pySplitDot (s : String) : List String :=
  (splitOnChar '.' s.toList).map String.mk

/-- The f-string DDL query built in `describe_table` (bigqueryOp.py
lines 124-128). -/
def ddlQuery (dataset_id : String) : String :=
  "\n            SELECT ddl\n            FROM " ++ dataset_id ++
  ".INFORMATION_SCHEMA.TABLES\n            WHERE table_name = @table_name;\n        "

/-- `describe_table` (bigqueryOp.py lines 113-134): splits the name on dots,
raises `ValueError` unless there are exactly 2 or 3 segments, otherwise
forwards to `execute_query` with the DDL query and a bound parameter. -/
def describe_table (db : BigQueryDatabase) (w : World) (table_name : String) :
    Except String (List (List (String × String))) × BigQueryDatabase × World :=
  if (pySplitDot table_name).length ≠ 2 ∧ (pySplitDot table_name).length ≠ 3 then
    (Except.error ("Invalid table name: " ++ table_name), db, w)
  else
    execute_query db w
      (ddlQuery (String.intercalate "." (pySplitDot table_name).dropLast))
      (some [{ name := "table_name", type := "STRING",
               value := (pySplitDot table_name).getLastD "" }])

/-- `save_query_to_csv_file` (bigqueryOp.py lines 136-175): runs the query,
ensures the directory of `file_path` exists via
`os.makedirs(os.path.dirname(file_path), exist_ok=True)`, writes header and
rows, and returns the success message.  It does NOT touch
`last_query_results`. -/
def save_query_to_csv_file (db : BigQueryDatabase) (w : World)
    (query file_path : String) (params : Option (List ScalarQueryParameter)) :
    Except String String × World :=
  match clientQuery db w query params with
  | (Except.error e, w1) => (Except.error e, w1)
  | (Except.ok res, w1) =>
    match os_makedirs w1 (os_path_dirname file_path) with
    | Except.error e => (Except.error e, w1)
    | Except.ok w2 =>
      (Except.ok ("Successfully saved " ++ toString res.rows.length ++
                  " rows to " ++ file_path),
       writeFile w2 file_path (csvRowsOf res.schema res.rows))

/-- `save_last_results_to_csv_file` (bigqueryOp.py lines 177-212): raises
`ValueError` when the cache is empty (before any directory creation or file
write); otherwise writes the cached header and rows. -/
def save_last_results_to_csv_file (db : BigQueryDatabase) (w : World)
    (file_path : String) : Except String String × World :=
  match db.last_query_results with
  | none =>
    (Except.error "No previous query results available. Execute a query first.", w)
  | some lqr =>
    match os_makedirs w (os_path_dirname file_path) with
    | Except.error e => (Except.error e, w)
    | Except.ok w2 =>
      (Except.ok ("Successfully saved " ++ toString lqr.rows.length ++
                  " rows to " ++ file_path),
       writeFile w2 file_path (csvRowsOf lqr.schema lqr.rows))

/-- `generate_csv_filename` (bigqueryOp.py lines 214-217);
`datetime.now().strftime(...)` is modelled by the `timestamp` argument. -/
def generate_csv_filename (timestamp : String) (base_name : String) : String :=
  base_name ++ "_" ++ timestamp ++ ".csv"

/-! ## Tool registry (server.py, handle_list_tools, lines 24-123) -/

/-- The `inputSchema` of a tool descriptor: the declared property names and
the `required` list (empty when the schema has no `required` key). -/
structure InputSchema where
  properties : List String
  required : List String
deriving DecidableEq, Repr

/-- A `types.Tool` descriptor as built in `handle_list_tools`. -/
structure Tool where
  name : String
  description : String
  inputSchema : InputSchema
deriving DecidableEq, Repr

def toolExecuteQuery : Tool :=
  { name := "execute-query",
    description := "Execute a SELECT query on the BigQuery database",
    inputSchema := { properties := ["query"], required := ["query"] } }

def toolListTables : Tool :=
  { name := "list-tables",
    description := "List all tables in the BigQuery database",
    inputSchema := { properties := ["datasets_filter"], required := [] } }

def toolDescribeTable : Tool :=
  { name := "describe-table",
    description := "Get the schema information for a specific table",
    inputSchema := { properties := ["table_name"], required := ["table_name"] } }

def toolSaveCsvFile : Tool :=
  { name := "save-csv-file",
    description := "Execute a SELECT query and save results to a CSV file",
    inputSchema := { properties := ["query", "file_path"],
                     required := ["query", "file_path"] } }

def toolSaveLastResultsCsv : Tool :=
  { name := "save-last-results-csv",
    description := "Save the last query results to a CSV file without re-running the query",
    inputSchema := { properties := ["file_path"], required := ["file_path"] } }

def toolSaveCsvAuto : Tool :=
  { name := "save-csv-auto",
    description := "Execute a SELECT query and save results to an auto-generated CSV file with timestamp",
    inputSchema := { properties := ["query", "directory", "base_name"],
                     required := ["query"] } }

/-- `handle_list_tools` (server.py lines 24-123): the closure takes no
arguments and reads no mutable state; its body is the literal list of the six
descriptors below, in source order. -/
def handle_list_tools : List Tool :=
  [toolExecuteQuery, toolListTables, toolDescribeTable,
   toolSaveCsvFile, toolSaveLastResultsCsv, toolSaveCsvAuto]

/-- The list-tools handler as seen from a session: the registered closure
ignores both the session (`BigQueryDatabase` state and effect state) and how
many calls preceded, since it captures nothing mutable. -/
def listToolsInSession (_db : BigQueryDatabase) (_w : World) (_callCount : Nat) :
    List Tool :=
  handle_list_tools

/-! ## Dispatcher (server.py, handle_call_tool, lines 125-180) -/

/-- A tool-call argument bag `dict[str, Any]`; all argument values for these
tools are strings.  `Option` models the `| None` of the signature. -/
abbrev Arguments := List (String × String)

/-- `arguments[k]` lookup (first binding wins, as in a dict). -/
def lookupArg (a : Arguments) (k : String) : Option String :=
  (a.find? (fun e => e.1 = k)).map Prod.snd

/-- Python truthiness of `arguments`: false for `None` and for `{}`. -/
def argTruthy : Option Arguments → Bool
  | none => false
  | some a => !a.isEmpty

/-- `k in arguments` (false when `arguments` is `None`). -/
def hasArg (args : Option Arguments) (k : String) : Bool :=
  match args with
  | none => false
  | some a => (lookupArg a k).isSome

/-- `arguments.get(k, d)`. -/
def getArgD (args : Option Arguments) (k d : String) : String :=
  match args with
  | none => d
  | some a => (lookupArg a k).getD d

/-- `str(results)` on a list of row dictionaries: a repr-style rendering.
The dispatcher only forwards this text; no claim depends on its exact shape. -/
def strOfRows (rows : List (List (String × String))) : String :=
  "[" ++ String.intercalate ", "
    (rows.map (fun r =>
      "\x7b" ++ String.intercalate ", " (r.map (fun kv => kv.1 ++ ": " ++ kv.2)) ++
      "\x7d")) ++ "]"

/-- The body of the `try:` block of `handle_call_tool` (server.py
lines 130-178), branch by branch in source order.  `Except.error (e, db, w)`
models an exception whose `str` is `e` escaping the body with the state as it
stands at the raise.  Notes on the `list-tables` branch (lines 131-133): the
code evaluates `arguments["datasets_filter"]` unconditionally — a `TypeError`
when `arguments` is `None`, a `KeyError` when the key is absent — and then
calls `db.list_tables(...)` with one positional argument although the method
(bigqueryOp.py line 90) accepts none, a `TypeError` raised before the method
body runs; so this branch always raises.  `ts` models the wall-clock
timestamp read by `generate_csv_filename`. -/
def callToolBody (db : BigQueryDatabase) (w : World) (ts : String)
    (name : String) (args : Option Arguments) :
    Except (String × BigQueryDatabase × World)
           (List Content × BigQueryDatabase × World) :=
  if name = "list-tables" then
    match args with
    | none => Except.error ("TypeError: NoneType object is not subscriptable", db, w)
    | some a =>
      match lookupArg a "datasets_filter" with
      | none => Except.error ("KeyError: datasets_filter", db, w)
      | some _ =>
        Except.error
          ("TypeError: list_tables() takes 1 positional argument but 2 were given",
           db, w)
  else if name = "describe-table" then
    if !argTruthy args || !hasArg args "table_name" then
      Except.error ("Missing table_name argument", db, w)
    else
      match describe_table db w (getArgD args "table_name" "") with
      | (Except.error e, db1, w1) => Except.error (e, db1, w1)
      | (Except.ok rows, db1, w1) => Except.ok ([Content.text (strOfRows rows)], db1, w1)
  else if name = "save-csv-file" then
    if !argTruthy args || !hasArg args "query" || !hasArg args "file_path" then
      Except.error ("Missing query or file_path argument", db, w)
    else
      match save_query_to_csv_file db w (getArgD args "query" "")
              (getArgD args "file_path" "") none with
      | (Except.error e, w1) => Except.error (e, db, w1)
      | (Except.ok msg, w1) => Except.ok ([Content.text msg], db, w1)
  else if name = "save-last-results-csv" then
    if !argTruthy args || !hasArg args "file_path" then
      Except.error ("Missing file_path argument", db, w)
    else
      match save_last_results_to_csv_file db w (getArgD args "file_path" "") with
      | (Except.error e, w1) => Except.error (e, db, w1)
      | (Except.ok msg, w1) => Except.ok ([Content.text msg], db, w1)
  else if name = "save-csv-auto" then
    if !argTruthy args || !hasArg args "query" then
      Except.error ("Missing query argument", db, w)
    else
      let directory := getArgD args "directory" "."
      let base_name := getArgD args "base_name" "bigquery_export"
      let filename := generate_csv_filename ts base_name
      let file_path := os_path_join directory filename
      match save_query_to_csv_file db w (getArgD args "query" "") file_path none with
      | (Except.error e, w1) => Except.error (e, db, w1)
      | (Except.ok msg, w1) => Except.ok ([Content.text msg], db, w1)
  else if name = "execute-query" then
    if !argTruthy args || !hasArg args "query" then
      Except.error ("Missing query argument", db, w)
    else
      match execute_query db w (getArgD args "query" "") none with
      | (Except.error e, db1, w1) => Except.error (e, db1, w1)
      | (Except.ok rows, db1, w1) => Except.ok ([Content.text (strOfRows rows)], db1, w1)
  else
    Except.error ("Unknown tool: " ++ name, db, w)

/-- `handle_call_tool` (server.py lines 125-180): the whole body sits in
`try: ... except Exception as e: return [TextContent(text=f"Error: ...")]`,
so every exception of the body becomes a single text block. -/
def handle_call_tool (db : BigQueryDatabase) (w : World) (ts : String)
    (name : String) (args : Option Arguments) :
    List Content × BigQueryDatabase × World :=
  match callToolBody db w ts name args with
  | Except.ok r => r
  | Except.error (e, db1, w1) => ([Content.text ("Error: " ++ e)], db1, w1)

/-! ## Application and sessions (server.py, create_starlette_app) -/

/-- The state of a running application: server.py lines 20-22 create ONE
`SseServerTransport`, ONE `Server` and ONE `BigQueryDatabase` per
application; every SSE session runs the same `server` with the same
registered closures over the same `db`, so the only state is this pair. -/
structure BootedApp where
  db : BigQueryDatabase
  world : World

/-- A tool call arriving on some session: the session id does not enter
dispatch because the registered `handle_call_tool` closure captures only the
application-wide `db` (server.py lines 22, 125-180). -/
def appHandleCall (app : BootedApp) (_sessionId : Nat) (ts : String)
    (name : String) (args : Option Arguments) : List Content × BootedApp :=
  let r := handle_call_tool app.db app.world ts name args
  (r.1, { db := r.2.1, world := r.2.2 })

/-! ## Bootstrap (server.py, create_starlette_app line 22 and
bigqueryOp.py, BigQueryDatabase constructor lines 31-63) -/

/-- A Python value as passed positionally to the constructor. -/
inductive PyVal
  | none
  | str (s : String)
  | list (xs : List String)
deriving DecidableEq, Repr

/-- Python truthiness of a `PyVal`. -/
def pyTruthy : PyVal → Bool
  | PyVal.none => false
  | PyVal.str s => s ≠ ""
  | PyVal.list xs => xs ≠ []

/-- Calling `BigQueryDatabase(...)` with a positional argument list.  The
signature (bigqueryOp.py lines 31-37) has four parameters — `project`,
`location`, `key_file`, `datasets_filter` — none with a default, so CPython
raises `TypeError` before the body runs unless exactly four positional
arguments are supplied.  The body then validates `project` and `location`
truthiness; credential parsing and client construction are abstracted into
`mkClient`, and the `datasets_filter` argument (annotated `list[str]`) is
stored on the instance. -/
def bigQueryDatabase_init (mkClient : PyVal → PyVal → PyVal → BQClient)
    (args : List PyVal) : Except String BigQueryDatabase :=
  match args with
  | [project, location, key_file, datasets_filter] =>
    if !pyTruthy project then Except.error "Project is required"
    else if !pyTruthy location then Except.error "Location is required"
    else
      Except.ok
        { client := mkClient project location key_file,
          datasets_filter := match datasets_filter with
            | PyVal.list xs => xs
            | _ => [],
          last_query_results := none }
  | _ =>
    Except.error
      "TypeError: BigQueryDatabase.__init__ missing 1 required positional argument: datasets_filter"

/-- `create_starlette_app` (server.py lines 17-22): builds the transport and
server, then evaluates `db = BigQueryDatabase(db_project, db_location,
db_key_file)` — three positional arguments. -/
def create_starlette_app (mkClient : PyVal → PyVal → PyVal → BQClient)
    (db_project db_location db_key_file : PyVal) : Except String BootedApp :=
  match bigQueryDatabase_init mkClient [db_project, db_location, db_key_file] with
  | Except.error e => Except.error e
  | Except.ok db =>
    Except.ok { db := db, world := { dirs := [], files := [], calls := [] } }

/-! ## Concrete fixtures used by witnesses and counterexamples -/

/-- A one-row, one-column query result. -/
def testQueryRes : QueryRes := { schema := ["a"], rows := [[("a", "1")]] }

/-- A client that answers every query with `testQueryRes`. -/
def testClient : BQClient :=
  { queryFn := fun _ _ => Except.ok testQueryRes,
    datasetsList := ["ds"],
    tablesOf := fun _ => ["t1"] }

/-- A freshly constructed database: empty filter, empty cache. -/
def testDB : BigQueryDatabase :=
  { client := testClient, datasets_filter := [], last_query_results := none }

/-- The initial effect state: no dirs, no files, no backend calls. -/
def w0 : World := { dirs := [], files := [], calls := [] }

/-- A freshly booted application around `testDB`. -/
def testApp : BootedApp := { db := testDB, world := w0 }

/-! ## Branch equations for the dispatcher -/

theorem handle_call_tool_of_error (db : BigQueryDatabase) (w : World)
    (ts name : String) (args : Option Arguments) (e : String)
    (db1 : BigQueryDatabase) (w1 : World)
    (h : callToolBody db w ts name args = Except.error (e, db1, w1)) :
    handle_call_tool db w ts name args = ([Content.text ("Error: " ++ e)], db1, w1) := by
  unfold handle_call_tool
  rw [h]

theorem handle_call_tool_of_ok (db : BigQueryDatabase) (w : World)
    (ts name : String) (args : Option Arguments)
    (r : List Content × BigQueryDatabase × World)
    (h : callToolBody db w ts name args = Except.ok r) :
    handle_call_tool db w ts name args = r := by
  unfold handle_call_tool
  rw [h]

theorem callToolBody_describe_table (db : BigQueryDatabase) (w : World)
    (ts : String) (args : Option Arguments) :
    callToolBody db w ts "describe-table" args =
      (if !argTruthy args || !hasArg args "table_name" then
        Except.error ("Missing table_name argument", db, w)
      else
        match describe_table db w (getArgD args "table_name" "") with
        | (Except.error e, db1, w1) => Except.error (e, db1, w1)
        | (Except.ok rows, db1, w1) =>
          Except.ok ([Content.text (strOfRows rows)], db1, w1)) := rfl

theorem callToolBody_save_csv_file (db : BigQueryDatabase) (w : World)
    (ts : String) (args : Option Arguments) :
    callToolBody db w ts "save-csv-file" args =
      (if !argTruthy args || !hasArg args "query" || !hasArg args "file_path" then
        Except.error ("Missing query or file_path argument", db, w)
      else
        match save_query_to_csv_file db w (getArgD args "query" "")
                (getArgD args "file_path" "") none with
        | (Except.error e, w1) => Except.error (e, db, w1)
        | (Except.ok msg, w1) => Except.ok ([Content.text msg], db, w1)) := rfl

theorem callToolBody_save_last (db : BigQueryDatabase) (w : World)
    (ts : String) (args : Option Arguments) :
    callToolBody db w ts "save-last-results-csv" args =
      (if !argTruthy args || !hasArg args "file_path" then
        Except.error ("Missing file_path argument", db, w)
      else
        match save_last_results_to_csv_file db w (getArgD args "file_path" "") with
        | (Except.error e, w1) => Except.error (e, db, w1)
        | (Except.ok msg, w1) => Except.ok ([Content.text msg], db, w1)) := rfl

theorem callToolBody_save_csv_auto (db : BigQueryDatabase) (w : World)
    (ts : String) (args : Option Arguments) :
    callToolBody db w ts "save-csv-auto" args =
      (if !argTruthy args || !hasArg args "query" then
        Except.error ("Missing query argument", db, w)
      else
        match save_query_to_csv_file db w (getArgD args "query" "")
                (os_path_join (getArgD args "directory" ".")
                  (generate_csv_filename ts (getArgD args "base_name" "bigquery_export")))
                none with
        | (Except.error e, w1) => Except.error (e, db, w1)
        | (Except.ok msg, w1) => Except.ok ([Content.text msg], db, w1)) := rfl

theorem callToolBody_execute_query (db : BigQueryDatabase) (w : World)
    (ts : String) (args : Option Arguments) :
    callToolBody db w ts "execute-query" args =
      (if !argTruthy args || !hasArg args "query" then
        Except.error ("Missing query argument", db, w)
      else
        match execute_query db w (getArgD args "query" "") none with
        | (Except.error e, db1, w1) => Except.error (e, db1, w1)
        | (Except.ok rows, db1, w1) =>
          Except.ok ([Content.text (strOfRows rows)], db1, w1)) := rfl

theorem callToolBody_unknown (db : BigQueryDatabase) (w : World)
    (ts name : String) (args : Option Arguments)
    (h1 : name ≠ "list-tables") (h2 : name ≠ "describe-table")
    (h3 : name ≠ "save-csv-file") (h4 : name ≠ "save-last-results-csv")
    (h5 : name ≠ "save-csv-auto") (h6 : name ≠ "execute-query") :
    callToolBody db w ts name args = Except.error ("Unknown tool: " ++ name, db, w) := by
  unfold callToolBody
  rw [if_neg h1, if_neg h2, if_neg h3, if_neg h4, if_neg h5, if_neg h6]

theorem save_csv_file_branch_preserves_db (db : BigQueryDatabase) (w : World)
    (ts : String) (args : Option Arguments) :
    (handle_call_tool db w ts "save-csv-file" args).2.1 = db := by
  unfold handle_call_tool
  rw [callToolBody_save_csv_file]
  by_cases hc : (!argTruthy args || !hasArg args "query" || !hasArg args "file_path") = true
  · rw [if_pos hc]
  · rw [if_neg hc]
    rcases hs : save_query_to_csv_file db w (getArgD args "query" "")
        (getArgD args "file_path" "") none with ⟨r, w1⟩
    rcases r with e | msg <;> simp

theorem save_csv_auto_branch_preserves_db (db : BigQueryDatabase) (w : World)
    (ts : String) (args : Option Arguments) :
    (handle_call_tool db w ts "save-csv-auto" args).2.1 = db := by
  unfold handle_call_tool
  rw [callToolBody_save_csv_auto]
  by_cases hc : (!argTruthy args || !hasArg args "query") = true
  · rw [if_pos hc]
  · rw [if_neg hc]
    rcases hs : save_query_to_csv_file db w (getArgD args "query" "")
        (os_path_join (getArgD args "directory" ".")
          (generate_csv_filename ts (getArgD args "base_name" "bigquery_export")))
        none with ⟨r, w1⟩
    rcases r with e | msg <;> simp

theorem execute_query_sets_cache (db : BigQueryDatabase) (w : World) (q : String)
    (params : Option (List ScalarQueryParameter)) (res : QueryRes) (w1 : World)
    (h : clientQuery db w q params = (Except.ok res, w1)) :
    (execute_query db w q params).2.1.last_query_results =
      some { rows := res.rows, schema := res.schema } := by
  unfold execute_query
  rw [h]

theorem handle_missing_execute_query (db : BigQueryDatabase) (w : World)
    (ts : String) (args : Option Arguments) (h : hasArg args "query" = false) :
    handle_call_tool db w ts "execute-query" args =
      ([Content.text ("Error: " ++ "Missing query argument")], db, w) := by
  apply handle_call_tool_of_error
  rw [callToolBody_execute_query, if_pos (by simp [h])]

theorem handle_missing_describe_table (db : BigQueryDatabase) (w : World)
    (ts : String) (args : Option Arguments) (h : hasArg args "table_name" = false) :
    handle_call_tool db w ts "describe-table" args =
      ([Content.text ("Error: " ++ "Missing table_name argument")], db, w) := by
  apply handle_call_tool_of_error
  rw [callToolBody_describe_table, if_pos (by simp [h])]

theorem handle_missing_save_csv_file (db : BigQueryDatabase) (w : World)
    (ts : String) (args : Option Arguments)
    (h : hasArg args "query" = false ∨ hasArg args "file_path" = false) :
    handle_call_tool db w ts "save-csv-file" args =
      ([Content.text ("Error: " ++ "Missing query or file_path argument")], db, w) := by
  apply handle_call_tool_of_error
  rw [callToolBody_save_csv_file, if_pos (by rcases h with h | h <;> simp [h])]

theorem handle_missing_save_last (db : BigQueryDatabase) (w : World)
    (ts : String) (args : Option Arguments) (h : hasArg args "file_path" = false) :
    handle_call_tool db w ts "save-last-results-csv" args =
      ([Content.text ("Error: " ++ "Missing file_path argument")], db, w) := by
  apply handle_call_tool_of_error
  rw [callToolBody_save_last, if_pos (by simp [h])]

theorem handle_missing_save_csv_auto (db : BigQueryDatabase) (w : World)
    (ts : String) (args : Option Arguments) (h : hasArg args "query" = false) :
    handle_call_tool db w ts "save-csv-auto" args =
      ([Content.text ("Error: " ++ "Missing query argument")], db, w) := by
  apply handle_call_tool_of_error
  rw [callToolBody_save_csv_auto, if_pos (by simp [h])]

/-! ## Claims -/

/-- C1, counterexample: `handle_list_tools` does not return five tool
descriptors — the catalog has six entries (save-csv-auto is the sixth). -/
theorem C1_counterexample : ¬ (handle_list_tools.length = 5) := by decide

/-- C1 (amended): the tool-catalog operation returns exactly SIX tool
descriptors, always the same descriptors in the same order — the handler of
`list_tools` is a constant closure, so its output is independent of the call
count and of any session state. -/
theorem C1_catalog_constant_six :
    handle_list_tools.length = 6 ∧
    handle_list_tools.map Tool.name =
      ["execute-query", "list-tables", "describe-table", "save-csv-file",
       "save-last-results-csv", "save-csv-auto"] ∧
    (∀ (db db2 : BigQueryDatabase) (w w2 : World) (n n2 : Nat),
      listToolsInSession db w n = listToolsInSession db2 w2 n2) :=
  ⟨rfl, rfl, fun _ _ _ _ _ _ => rfl⟩

/-- C2: the `list-tables` branch of the dispatcher can never succeed, with or
without `datasets_filter`.  It evaluates `arguments["datasets_filter"]`
unconditionally (a `KeyError` when the optional argument is omitted, a
`TypeError` when the bag is `None`), and even when the argument is supplied it
passes it to `BigQueryDatabase.list_tables`, which accepts no parameter, so
the call itself raises `TypeError`; every case surfaces as an error result and
the backend is never reached (the state is unchanged). -/
theorem C2_list_tables_always_errors :
    handle_call_tool testDB w0 "ts" "list-tables" (some []) =
      ([Content.text "Error: KeyError: datasets_filter"], testDB, w0) ∧
    handle_call_tool testDB w0 "ts" "list-tables"
        (some [("datasets_filter", "my_dataset")]) =
      ([Content.text
          "Error: TypeError: list_tables() takes 1 positional argument but 2 were given"],
       testDB, w0) ∧
    handle_call_tool testDB w0 "ts" "list-tables" none =
      ([Content.text "Error: TypeError: NoneType object is not subscriptable"],
       testDB, w0) :=
  ⟨rfl, rfl, rfl⟩

/-- C3: the dispatcher never raises past its boundary — whenever the body of
the `try:` block raises (with message `e` and intermediate state), the result
is the single text block `"Error: " ++ e` with that state; and any tool name
outside the dispatched set yields the single block
`"Error: Unknown tool: <name>"` with the state untouched, never an abort
(`handle_call_tool` is a total function). -/
theorem C3_dispatch_never_raises (db : BigQueryDatabase) (w : World)
    (ts name : String) (args : Option Arguments) :
    (∀ e db1 w1, callToolBody db w ts name args = Except.error (e, db1, w1) →
      handle_call_tool db w ts name args =
        ([Content.text ("Error: " ++ e)], db1, w1)) ∧
    (name ∉ ["execute-query", "list-tables", "describe-table", "save-csv-file",
             "save-last-results-csv", "save-csv-auto"] →
      handle_call_tool db w ts name args =
        ([Content.text ("Error: Unknown tool: " ++ name)], db, w)) := by
  constructor
  · intro e db1 w1 h
    exact handle_call_tool_of_error db w ts name args e db1 w1 h
  · intro hn
    simp only [List.mem_cons, List.not_mem_nil, or_false, not_or] at hn
    obtain ⟨h1, h2, h3, h4, h5, h6⟩ := hn
    exact handle_call_tool_of_error db w ts name args _ db w
      (callToolBody_unknown db w ts name args h2 h3 h4 h5 h6 h1)

/-- Witness for C3 at a concrete unknown tool name. -/
theorem C3_dispatch_never_raises_witness :
    handle_call_tool testDB w0 "ts" "drop-everything" none =
      ([Content.text "Error: Unknown tool: drop-everything"], testDB, w0) :=
  (C3_dispatch_never_raises testDB w0 "ts" "drop-everything" none).2 (by decide)

/-- C4, counterexample: the LastQueryCache is NOT owned exclusively by one
session.  On a fresh application, session 2's `save-last-results-csv` reports
the empty-cache error; after session 1 executes a query, the very same call
by session 2 succeeds and writes session 1's rows — a query in one session
changes what `save-last-results-csv` observes in another. -/
theorem C4_counterexample :
    (appHandleCall testApp 2 "ts" "save-last-results-csv"
        (some [("file_path", "/tmp/out.csv")])).1 =
      [Content.text
        "Error: No previous query results available. Execute a query first."] ∧
    (appHandleCall
        (appHandleCall testApp 1 "ts" "execute-query"
          (some [("query", "SELECT 1")])).2
        2 "ts" "save-last-results-csv" (some [("file_path", "/tmp/out.csv")])).1 =
      [Content.text "Successfully saved 1 rows to /tmp/out.csv"] :=
  ⟨rfl, rfl⟩

/-- C4 (amended): the LastQueryCache lives on the single `BigQueryDatabase`
created per application (server.py lines 20-22) and is shared by ALL
sessions: dispatch does not depend on the session id at all, so a query
executed in one session changes what `save-last-results-csv` observes in
every session. -/
theorem C4_amended_sessions_share_cache :
    ∀ (app : BootedApp) (sid1 sid2 : Nat) (ts name : String)
      (args : Option Arguments),
      appHandleCall app sid1 ts name args = appHandleCall app sid2 ts name args :=
  fun _ _ _ _ _ _ => rfl

/-- C5, counterexample: a successful `save-csv-file` call does NOT set the
LastQueryCache — it writes the CSV and reports success, yet the cache is
still empty afterwards, so a subsequent `save-last-results-csv` reports the
empty-cache error instead of writing those rows. -/
theorem C5_counterexample :
    (handle_call_tool testDB w0 "ts" "save-csv-file"
        (some [("query", "SELECT 1"), ("file_path", "/tmp/a.csv")])).1 =
      [Content.text "Successfully saved 1 rows to /tmp/a.csv"] ∧
    (handle_call_tool testDB w0 "ts" "save-csv-file"
        (some [("query", "SELECT 1"), ("file_path", "/tmp/a.csv")])).2.1.last_query_results
      = none :=
  ⟨rfl, rfl⟩

/-- C5 (amended): the CSV-exporting query operations (`save-csv-file`,
`save-csv-auto`) never modify the database state, in particular the
LastQueryCache; only `execute_query` (used by `execute-query` and
`describe-table`) sets the cache, overwriting it with exactly the rows and
schema of the query it ran. -/
theorem C5_csv_tools_do_not_touch_cache :
    (∀ (db : BigQueryDatabase) (w : World) (ts : String) (args : Option Arguments),
      (handle_call_tool db w ts "save-csv-file" args).2.1 = db) ∧
    (∀ (db : BigQueryDatabase) (w : World) (ts : String) (args : Option Arguments),
      (handle_call_tool db w ts "save-csv-auto" args).2.1 = db) ∧
    (∀ (db : BigQueryDatabase) (w : World) (q : String)
      (params : Option (List ScalarQueryParameter)) (res : QueryRes) (w1 : World),
      clientQuery db w q params = (Except.ok res, w1) →
      (execute_query db w q params).2.1.last_query_results =
        some { rows := res.rows, schema := res.schema }) :=
  ⟨save_csv_file_branch_preserves_db, save_csv_auto_branch_preserves_db,
   execute_query_sets_cache⟩

/-- Witness for C5 (amended), discharging the cache-overwrite hypothesis at
the concrete test client. -/
theorem C5_csv_tools_do_not_touch_cache_witness :
    (execute_query testDB w0 "SELECT 1" none).2.1.last_query_results =
      some { rows := [[("a", "1")]], schema := ["a"] } :=
  C5_csv_tools_do_not_touch_cache.2.2 testDB w0 "SELECT 1" none testQueryRes
    { dirs := [], files := [], calls := [BackendCall.query "SELECT 1"] } rfl

/-- C6: invoking `save-last-results-csv` while the LastQueryCache is empty
yields an error-content result, and both the database state and the effect
state (directories, files, backend-call trace) are returned unchanged — no
file write is performed and dispatch terminates normally. -/
theorem C6_empty_cache_reports_error (db : BigQueryDatabase) (w : World)
    (ts : String) (args : Option Arguments)
    (h : db.last_query_results = none) :
    ∃ e, handle_call_tool db w ts "save-last-results-csv" args =
      ([Content.text ("Error: " ++ e)], db, w) := by
  by_cases hc : (!argTruthy args || !hasArg args "file_path") = true
  · refine ⟨"Missing file_path argument",
      handle_call_tool_of_error db w ts _ args _ db w ?_⟩
    rw [callToolBody_save_last, if_pos hc]
  · refine ⟨"No previous query results available. Execute a query first.",
      handle_call_tool_of_error db w ts _ args _ db w ?_⟩
    rw [callToolBody_save_last, if_neg hc]
    have hs : save_last_results_to_csv_file db w (getArgD args "file_path" "") =
        (Except.error "No previous query results available. Execute a query first.",
         w) := by
      unfold save_last_results_to_csv_file
      rw [h]
    rw [hs]

/-- Witness for C6 on a fresh session. -/
theorem C6_empty_cache_reports_error_witness :
    ∃ e, handle_call_tool testDB w0 "ts" "save-last-results-csv"
        (some [("file_path", "/tmp/out2.csv")]) =
      ([Content.text ("Error: " ++ e)], testDB, w0) :=
  C6_empty_cache_reports_error testDB w0 "ts"
    (some [("file_path", "/tmp/out2.csv")]) rfl

/-- C7: `describe_table` validates the dot-segment count of `table_name`
before doing anything else: with a segment count outside {2,3} it returns the
validation error with the state (and hence the backend-call trace) untouched,
for any client; with exactly 2 or 3 segments it forwards the request to the
backend via `execute_query` with the DDL query and the bound table name. -/
theorem C7_describe_table_validation (db : BigQueryDatabase) (w : World)
    (tn : String) :
    (((pySplitDot tn).length ≠ 2 ∧ (pySplitDot tn).length ≠ 3) →
      describe_table db w tn =
        (Except.error ("Invalid table name: " ++ tn), db, w)) ∧
    (((pySplitDot tn).length = 2 ∨ (pySplitDot tn).length = 3) →
      describe_table db w tn =
        execute_query db w
          (ddlQuery (String.intercalate "." (pySplitDot tn).dropLast))
          (some [{ name := "table_name", type := "STRING",
                   value := (pySplitDot tn).getLastD "" }])) := by
  constructor
  · intro h
    unfold describe_table
    rw [if_pos h]
  · intro h
    unfold describe_table
    rw [if_neg (by rcases h with h | h <;> simp [h])]

/-- Witness for C7: `"a.b.c.d"` is rejected with the state untouched, while
`"d.t"` is forwarded to the backend. -/
theorem C7_describe_table_validation_witness :
    describe_table testDB w0 "a.b.c.d" =
      (Except.error "Invalid table name: a.b.c.d", testDB, w0) ∧
    describe_table testDB w0 "d.t" =
      execute_query testDB w0 (ddlQuery "d")
        (some [{ name := "table_name", type := "STRING", value := "t" }]) :=
  ⟨(C7_describe_table_validation testDB w0 "a.b.c.d").1 (by decide),
   (C7_describe_table_validation testDB w0 "d.t").2 (Or.inl (by decide))⟩

/-- C8: whenever a tool of the catalog is invoked with a required argument
missing from the argument bag (including an absent or empty bag), the
dispatcher returns an error-content result and both the database state and
the effect state come back unchanged — so no backend operation (query, table
listing, DDL fetch) runs and no CSV file is written. -/
theorem C8_missing_required_never_reaches_backend (db : BigQueryDatabase)
    (w : World) (ts : String) (t : Tool) (args : Option Arguments) (req : String)
    (ht : t ∈ handle_list_tools) (hreq : req ∈ t.inputSchema.required)
    (hmiss : hasArg args req = false) :
    ∃ e, handle_call_tool db w ts t.name args =
      ([Content.text ("Error: " ++ e)], db, w) := by
  simp only [handle_list_tools, List.mem_cons, List.not_mem_nil, or_false] at ht
  rcases ht with rfl | rfl | rfl | rfl | rfl | rfl
  · simp only [toolExecuteQuery, List.mem_singleton] at hreq
    subst hreq
    exact ⟨"Missing query argument",
      handle_missing_execute_query db w ts args hmiss⟩
  · simp only [toolListTables, List.not_mem_nil] at hreq
  · simp only [toolDescribeTable, List.mem_singleton] at hreq
    subst hreq
    exact ⟨"Missing table_name argument",
      handle_missing_describe_table db w ts args hmiss⟩
  · simp only [toolSaveCsvFile, List.mem_cons, List.not_mem_nil, or_false] at hreq
    refine ⟨"Missing query or file_path argument",
      handle_missing_save_csv_file db w ts args ?_⟩
    rcases hreq with rfl | rfl
    · exact Or.inl hmiss
    · exact Or.inr hmiss
  · simp only [toolSaveLastResultsCsv, List.mem_singleton] at hreq
    subst hreq
    exact ⟨"Missing file_path argument",
      handle_missing_save_last db w ts args hmiss⟩
  · simp only [toolSaveCsvAuto, List.mem_singleton] at hreq
    subst hreq
    exact ⟨"Missing query argument",
      handle_missing_save_csv_auto db w ts args hmiss⟩

/-- Witness for C8: `execute-query` with an empty argument bag. -/
theorem C8_missing_required_never_reaches_backend_witness :
    ∃ e, handle_call_tool testDB w0 "ts" toolExecuteQuery.name (some []) =
      ([Content.text ("Error: " ++ e)], testDB, w0) :=
  C8_missing_required_never_reaches_backend testDB w0 "ts" toolExecuteQuery
    (some []) "query" (by decide) (by decide) (by decide)

/-- C9: `save-csv-file` with a bare filename (no directory component) does
NOT succeed: `os.path.dirname "out.csv" = ""` and
`os.makedirs("", exist_ok=True)` raises `FileNotFoundError`, so the call is
reported as an error and no file is written (the final state records the
backend query but an empty file table), contradicting "the write does not
fail for lack of a parent directory". -/
theorem C9_bare_filename_fails :
    handle_call_tool testDB w0 "ts" "save-csv-file"
        (some [("query", "SELECT 1"), ("file_path", "out.csv")]) =
      ([Content.text "Error: No such file or directory"], testDB,
       { dirs := [], files := [], calls := [BackendCall.query "SELECT 1"] }) ∧
    os_path_dirname "out.csv" = "" :=
  ⟨rfl, rfl⟩

/-- C10: for every configuration triple (each of project, location and
key-file an arbitrary Python value) and every client factory, the bootstrap
`create_starlette_app` fails: it calls the `BigQueryDatabase` constructor
with three positional arguments while the signature requires four (no
default for `datasets_filter`), a `TypeError` raised before any serving
begins. -/
theorem C10_bootstrap_never_serves :
    ∀ (mkClient : PyVal → PyVal → PyVal → BQClient) (p l k : PyVal),
      create_starlette_app mkClient p l k =
        Except.error
          "TypeError: BigQueryDatabase.__init__ missing 1 required positional argument: datasets_filter" :=
  fun _ _ _ _ => rfl

end BqSse
